import Mathlib

/-!
Catalog repository (repo.go).

A shallow embedding of the five repository operations of `repo.go`
(`PutProduct`, `GetProductByID`, `ListProducts`, `ListProductsWithIDs`,
`SearchProducts`) together with the models of the search engine that the
properties below are stated over.

Conventions of the embedding.

* A Go `error` result is `Option (GoError E)`: `none` is `nil`, `E` is the type
  of the error values made by the external libraries (the engine client and
  `encoding/json`).
* A Go pointer or slice that may be `nil` is an `Option`; so are the `Source`
  of a hit or document, the `Hits` object of a search answer, and every entry
  of the slices of pointers `Hits.Hits` and `Docs`.
* A Go method body either returns or panics (nil pointer dereference): `Outcome`.
* `uint64` arguments are natural numbers; the conversion `int(x)` is
  `intOfUint64`, with Go `int` taken as 64 bits wide.
* `float64` is a type parameter `F`: the repository only copies prices.
* The receiver `r.client` is represented by the one client operation a method
  invokes, a function of the request and of the engine state `S`.
* `json.Unmarshal` into a fresh `productDocument` is a function
  `unmarshal : Raw → Except E (productDocument F)` of the raw payload.
* `log.Println` is not modelled.
-/

namespace Catalog

/-! ## Data model -/

/-- What running a Go function body produces: returned values, or a panic. -/
inductive Outcome (α : Type) where
  | ret (a : α)
  | panic
deriving DecidableEq

/-- Go error values the repository handles: the package sentinel created by
`errors.New("entity not found")`, or a value made by an external library. -/
inductive GoError (E : Type) where
  | entityNotFound
  | external (e : E)
deriving DecidableEq

/-- The package variable `ErrNotFound = errors.New("entity not found")`. -/
def ErrNotFound {E : Type} : GoError E := GoError.entityNotFound

/-- Modelled from the spec: the declaration of the domain entity `Product` is
not in `repo.go`; its four fields are the ones `repo.go` reads and writes
(identity `ID`, `Name`, `Description`, floating point `Price`). -/
structure Product (F : Type) where
  ID : String
  Name : String
  Description : String
  Price : F
deriving DecidableEq

/-- The stored document shape `productDocument`. -/
structure productDocument (F : Type) where
  Name : String
  Description : String
  Price : F
deriving DecidableEq

/-! ## Engine client interface, as far as `repo.go` uses it -/

/-- The two queries `repo.go` builds: `NewMatchAllQuery()` and
`NewMultiMatchQuery(text, fields...)`. -/
inductive Query where
  | MatchAll
  | MultiMatch (text : String) (fields : List String)
deriving DecidableEq

/-- Request built by `client.Index().Index(..).Type(..).Id(..).BodyJson(..)`. -/
structure IndexRequest (F : Type) where
  Index : String
  DocType : String
  Id : String
  BodyJson : productDocument F
deriving DecidableEq

/-- Request built by `client.Get().Index(..).Type(..).Id(..)`. -/
structure GetRequest where
  Index : String
  DocType : String
  Id : String
deriving DecidableEq

/-- One `NewMultiGetItem().Index(..).Type(..).Id(..)`. -/
structure MultiGetItem where
  Index : String
  DocType : String
  Id : String
deriving DecidableEq

/-- Request built by `client.Search().Index(..).Type(..).Query(..).From(..).Size(..)`. -/
structure SearchRequest where
  Index : String
  DocType : String
  Query : Query
  From : Int
  Size : Int
deriving DecidableEq

/-- Engine answer to a get, and one entry of a multi-get answer. `Source` is
the pointer `repo.go` dereferences with `*res.Source` and `*doc.Source`. -/
structure GetResult (Raw : Type) where
  Id : String
  Found : Bool
  Source : Option Raw
deriving DecidableEq

/-- One search hit. `Source` is the pointer dereferenced with `*hit.Source`. -/
structure SearchHit (Raw : Type) where
  Id : String
  Source : Option Raw
deriving DecidableEq

/-- The hits object of a search answer: a slice of pointers to hits. -/
structure SearchHits (Raw : Type) where
  Hits : List (Option (SearchHit Raw))
deriving DecidableEq

/-- Engine answer to a search. `Hits` is a pointer to the hits object, which
`repo.go` dereferences with `res.Hits.Hits`. -/
structure SearchResult (Raw : Type) where
  Hits : Option (SearchHits Raw)
deriving DecidableEq

/-- Engine answer to a multi-get: a slice of pointers to entries. -/
structure MgetResponse (Raw : Type) where
  Docs : List (Option (GetResult Raw))
deriving DecidableEq

/-! ## The repository operations -/

/-- The conversion `int(x)` of a `uint64` on a platform with 64-bit `int`:
the two's complement reading of the low 64 bits. -/
def intOfUint64 (x : Nat) : Int :=
  if x % 2 ^ 64 < 2 ^ 63 then ((x % 2 ^ 64 : Nat) : Int)
  else ((x % 2 ^ 64 : Nat) : Int) - 2 ^ 64

/-- The index request `PutProduct` sends. -/
def PutProduct.request {F : Type} (p : Product F) : IndexRequest F :=
  IndexRequest.mk "catalog" "product" p.ID
    (productDocument.mk p.Name p.Description p.Price)

/-- `PutProduct`: one index call, its error returned as is. -/
def PutProduct {S E F : Type}
    (index : IndexRequest F → S → Except E Unit × S)
    (p : Product F) (s : S) : Option (GoError E) × S :=
  match index (PutProduct.request p) s with
  | (Except.error err, s1) => (some (GoError.external err), s1)
  | (Except.ok _, s1) => (none, s1)

/-- The get request `GetProductByID` sends. -/
def GetProductByID.request (id : String) : GetRequest :=
  GetRequest.mk "catalog" "product" id

/-- `GetProductByID`. -/
def GetProductByID {S E Raw F : Type}
    (get : GetRequest → S → Except E (GetResult Raw))
    (unmarshal : Raw → Except E (productDocument F))
    (id : String) (s : S) :
    Outcome (Option (Product F) × Option (GoError E)) :=
  match get (GetProductByID.request id) s with
  | Except.error err => Outcome.ret (none, some (GoError.external err))
  | Except.ok res =>
    if !res.Found then Outcome.ret (none, some ErrNotFound)
    else
      match res.Source with
      | none => Outcome.panic
      | some src =>
        match unmarshal src with
        | Except.error err => Outcome.ret (none, some (GoError.external err))
        | Except.ok p =>
          Outcome.ret (some (Product.mk id p.Name p.Description p.Price), none)

/-- The search request `ListProducts` sends. -/
def ListProducts.request (skip take : Nat) : SearchRequest :=
  SearchRequest.mk "catalog" "product" Query.MatchAll
    (intOfUint64 skip) (intOfUint64 take)

/-- The `for _, hit := range res.Hits.Hits` loop of `ListProducts`, run on the
remaining hits with the current values of `products` and `err`. Reading
`hit.Source` through a nil `hit`, and `*hit.Source` with a nil `Source`, panic. -/
def ListProducts.loop {E Raw F : Type}
    (unmarshal : Raw → Except E (productDocument F)) :
    List (Option (SearchHit Raw)) → List (Product F) → Option (GoError E) →
      Outcome (List (Product F) × Option (GoError E))
  | [], products, err => Outcome.ret (products, err)
  | none :: _, _, _ => Outcome.panic
  | some hit :: rest, products, _ =>
    match hit.Source with
    | none => Outcome.panic
    | some src =>
      match unmarshal src with
      | Except.ok p =>
        ListProducts.loop unmarshal rest
          (products ++ [Product.mk hit.Id p.Name p.Description p.Price]) none
      | Except.error e =>
        ListProducts.loop unmarshal rest products (some (GoError.external e))

/-- `ListProducts`. Reading `res.Hits.Hits` through a nil `Hits` panics. -/
def ListProducts {S E Raw F : Type}
    (search : SearchRequest → S → Except E (SearchResult Raw))
    (unmarshal : Raw → Except E (productDocument F))
    (skip take : Nat) (s : S) :
    Outcome (Option (List (Product F)) × Option (GoError E)) :=
  match search (ListProducts.request skip take) s with
  | Except.error err => Outcome.ret (none, some (GoError.external err))
  | Except.ok res =>
    match res.Hits with
    | none => Outcome.panic
    | some hits =>
      match ListProducts.loop unmarshal hits.Hits [] none with
      | Outcome.panic => Outcome.panic
      | Outcome.ret (products, err) => Outcome.ret (some products, err)

/-- The `for _, id := range ids` loop of `ListProductsWithIDs` building the
multi-get items. -/
def ListProductsWithIDs.items : List String → List MultiGetItem → List MultiGetItem
  | [], items => items
  | id :: rest, items =>
    ListProductsWithIDs.items rest (items ++ [MultiGetItem.mk "catalog" "product" id])

/-- The `for _, doc := range res.Docs` loop of `ListProductsWithIDs`. -/
def ListProductsWithIDs.loop {E Raw F : Type}
    (unmarshal : Raw → Except E (productDocument F)) :
    List (Option (GetResult Raw)) → List (Product F) → Option (GoError E) →
      Outcome (List (Product F) × Option (GoError E))
  | [], products, err => Outcome.ret (products, err)
  | none :: _, _, _ => Outcome.panic
  | some doc :: rest, products, _ =>
    match doc.Source with
    | none => Outcome.panic
    | some src =>
      match unmarshal src with
      | Except.ok p =>
        ListProductsWithIDs.loop unmarshal rest
          (products ++ [Product.mk doc.Id p.Name p.Description p.Price]) none
      | Except.error e =>
        ListProductsWithIDs.loop unmarshal rest products (some (GoError.external e))

/-- `ListProductsWithIDs`: the final `return products, nil` discards `err`. -/
def ListProductsWithIDs {S E Raw F : Type}
    (multiGet : List MultiGetItem → S → Except E (MgetResponse Raw))
    (unmarshal : Raw → Except E (productDocument F))
    (ids : List String) (s : S) :
    Outcome (Option (List (Product F)) × Option (GoError E)) :=
  match multiGet (ListProductsWithIDs.items ids []) s with
  | Except.error err => Outcome.ret (none, some (GoError.external err))
  | Except.ok res =>
    match ListProductsWithIDs.loop unmarshal res.Docs [] none with
    | Outcome.panic => Outcome.panic
    | Outcome.ret (products, _) => Outcome.ret (some products, none)

/-- The search request `SearchProducts` sends. -/
def SearchProducts.request (query : String) (skip take : Nat) : SearchRequest :=
  SearchRequest.mk "catalog" "product"
    (Query.MultiMatch query ["name", "description"])
    (intOfUint64 skip) (intOfUint64 take)

/-- The `for _, hit := range res.Hits.Hits` loop of `SearchProducts`. -/
def SearchProducts.loop {E Raw F : Type}
    (unmarshal : Raw → Except E (productDocument F)) :
    List (Option (SearchHit Raw)) → List (Product F) → Option (GoError E) →
      Outcome (List (Product F) × Option (GoError E))
  | [], products, err => Outcome.ret (products, err)
  | none :: _, _, _ => Outcome.panic
  | some hit :: rest, products, _ =>
    match hit.Source with
    | none => Outcome.panic
    | some src =>
      match unmarshal src with
      | Except.ok p =>
        SearchProducts.loop unmarshal rest
          (products ++ [Product.mk hit.Id p.Name p.Description p.Price]) none
      | Except.error e =>
        SearchProducts.loop unmarshal rest products (some (GoError.external e))

/-- `SearchProducts`. Reading `res.Hits.Hits` through a nil `Hits` panics. -/
def SearchProducts {S E Raw F : Type}
    (search : SearchRequest → S → Except E (SearchResult Raw))
    (unmarshal : Raw → Except E (productDocument F))
    (query : String) (skip take : Nat) (s : S) :
    Outcome (Option (List (Product F)) × Option (GoError E)) :=
  match search (SearchProducts.request query skip take) s with
  | Except.error err => Outcome.ret (none, some (GoError.external err))
  | Except.ok res =>
    match res.Hits with
    | none => Outcome.panic
    | some hits =>
      match SearchProducts.loop unmarshal hits.Hits [] none with
      | Outcome.panic => Outcome.panic
      | Outcome.ret (products, err) => Outcome.ret (some products, err)

/-! ## Engine models -/

/-- Engine model: a key-to-document store. A document is addressed by index
name, document type and key, and holds the raw body the engine received. -/
structure DocStore (Raw : Type) where
  docs : String → String → String → Option Raw

/-- The store holding no document. -/
def DocStore.empty {Raw : Type} : DocStore Raw :=
  DocStore.mk (fun _ _ _ => none)

/-- The error values the engine client itself makes in the store model: a
request refused before it is sent because a required field is empty, and the
engine's status 404, which the client turns into an error. -/
structure ClientErrors (E : Type) where
  missingRequiredFields : E
  notFound : E

/-- Index call of the store. A request with an empty index name or document
type is refused. The body is serialised by `marshal`; when that fails the call
fails and the store is unchanged. Otherwise the document is inserted or
replaced under the request's key, or under the key `autoId` the engine
generates when the request's key is empty. -/
def DocStore.index {E Raw F : Type}
    (marshal : productDocument F → Except E Raw)
    (errs : ClientErrors E) (autoId : String)
    (req : IndexRequest F) (s : DocStore Raw) : Except E Unit × DocStore Raw :=
  if req.Index = "" ∨ req.DocType = "" then
    (Except.error errs.missingRequiredFields, s)
  else
    match marshal req.BodyJson with
    | Except.error e => (Except.error e, s)
    | Except.ok raw =>
      (Except.ok (),
        DocStore.mk (fun i t k =>
          if i = req.Index ∧ t = req.DocType ∧
              k = (if req.Id = "" then autoId else req.Id) then some raw
          else s.docs i t k))

/-- What the store answers for one key of a multi-get: the document when
present, otherwise an entry marked not found that carries no source payload. -/
def DocStore.lookup {Raw : Type} (s : DocStore Raw) (i t k : String) :
    GetResult Raw :=
  match s.docs i t k with
  | some raw => GetResult.mk k true (some raw)
  | none => GetResult.mk k false none

/-- Get call of the store. A request with an empty key, index name or document
type is refused; a key that is not stored is the engine's 404, which the client
returns as an error; a stored key is answered with its document. -/
def DocStore.get {E Raw : Type} (errs : ClientErrors E)
    (req : GetRequest) (s : DocStore Raw) : Except E (GetResult Raw) :=
  if req.Id = "" ∨ req.Index = "" ∨ req.DocType = "" then
    Except.error errs.missingRequiredFields
  else
    match s.docs req.Index req.DocType req.Id with
    | some raw => Except.ok (GetResult.mk req.Id true (some raw))
    | none => Except.error errs.notFound

/-- Multi-get call of the store: always succeeds, one entry per requested
item, in request order. -/
def DocStore.multiGet {E Raw : Type} (items : List MultiGetItem)
    (s : DocStore Raw) : Except E (MgetResponse Raw) :=
  Except.ok (MgetResponse.mk
    (items.map (fun it => some (s.lookup it.Index it.DocType it.Id))))

/-- The window `[frm, frm + size)` of a sequence, for integer bounds: the
elements whose position `i` satisfies `frm ≤ i < frm + size`. -/
def window {α : Type} (xs : List α) (frm size : Int) : List α :=
  (xs.drop frm.toNat).take ((frm + size).toNat - frm.toNat)

/-- Engine model: a static dataset, one fixed sequence of stored documents
(key and body). A search answers the window the request's offset and limit
select, every hit carrying its document's body. -/
def staticSearch {E Raw : Type} (dataset : List (String × Raw))
    (req : SearchRequest) (_ : Unit) : Except E (SearchResult Raw) :=
  Except.ok (SearchResult.mk (some (SearchHits.mk
    (window (dataset.map (fun d => some (SearchHit.mk d.1 (some d.2))))
      req.From req.Size))))

/-! ## A concrete codec for the examples -/

/-- Raw payloads of the example codec: the encoding of a document, or bytes
that do not parse. -/
inductive SamplePayload where
  | encoded (d : productDocument Nat)
  | malformed
deriving DecidableEq

/-- Example encoder: total. -/
def sampleMarshal (d : productDocument Nat) : Except String SamplePayload :=
  Except.ok (SamplePayload.encoded d)

/-- Example decoder: fails on malformed bytes. -/
def sampleUnmarshal : SamplePayload → Except String (productDocument Nat)
  | SamplePayload.encoded d => Except.ok d
  | SamplePayload.malformed => Except.error "invalid character"

/-- The product of the concrete scenario, the price in cents. -/
def redMug : Product Nat :=
  Product.mk "p1" "Red Mug" "Ceramic mug, red glaze" 999

/-- An example encoder that does not keep the name: it writes the text `?` in
its place, much as `encoding/json` writes U+FFFD for bytes that are not valid
UTF-8. -/
def replacingMarshal (d : productDocument Nat) : Except String SamplePayload :=
  Except.ok (SamplePayload.encoded (productDocument.mk "?" d.Description d.Price))

/-- The client errors of the example store. -/
def sampleErrors : ClientErrors String :=
  ClientErrors.mk "missing required fields: [Id]" "elastic: Error 404 (Not Found)"

/-- The red mug with an empty `ID`. -/
def namelessKeyMug : Product Nat :=
  Product.mk "" "Red Mug" "Ceramic mug, red glaze" 999

/-- Index call of the example store. -/
def sampleIndex : IndexRequest Nat → DocStore SamplePayload →
    Except String Unit × DocStore SamplePayload :=
  DocStore.index sampleMarshal sampleErrors "AVx3generated"

/-- Index call of the example store with the encoder that replaces names. -/
def replacingIndex : IndexRequest Nat → DocStore SamplePayload →
    Except String Unit × DocStore SamplePayload :=
  DocStore.index replacingMarshal sampleErrors "AVx3generated"

/-- Get call of the example store. -/
def sampleGet : GetRequest → DocStore SamplePayload →
    Except String (GetResult SamplePayload) :=
  DocStore.get sampleErrors

/-- Multi-get call of the example store. -/
def sampleMultiGet : List MultiGetItem → DocStore SamplePayload →
    Except String (MgetResponse SamplePayload) :=
  DocStore.multiGet

/-- The example store after `PutProduct` of the red mug into the empty store. -/
def sampleStore : DocStore SamplePayload :=
  (PutProduct sampleIndex redMug DocStore.empty).2

/-- An engine call that fails with the given transport error. -/
def failing {Req Res : Type} (e : String) : Req → Unit → Except String Res :=
  fun _ _ => Except.error e

/-- An engine call that answers every request with the given response. -/
def answering {Req Res : Type} (res : Res) : Req → Unit → Except String Res :=
  fun _ _ => Except.ok res

/-- A search response of two hits: the first decodes, the last does not. -/
def lastHitMalformed : SearchResult SamplePayload :=
  SearchResult.mk (some (SearchHits.mk
    [some (SearchHit.mk "p1"
      (some (SamplePayload.encoded (productDocument.mk "Red Mug" "Ceramic" 999)))),
     some (SearchHit.mk "p2" (some SamplePayload.malformed))]))

/-- The multi-get response with the same two entries as `lastHitMalformed`. -/
def lastDocMalformed : MgetResponse SamplePayload :=
  MgetResponse.mk
    [some (GetResult.mk "p1" true
      (some (SamplePayload.encoded (productDocument.mk "Red Mug" "Ceramic" 999)))),
     some (GetResult.mk "p2" true (some SamplePayload.malformed))]

/-- A search response whose only hit has a nil `Source`. -/
def hitWithoutSource : SearchResult SamplePayload :=
  SearchResult.mk (some (SearchHits.mk [some (SearchHit.mk "p1" none)]))

/-- A successful search response without a hits object. -/
def withoutHitsObject : SearchResult SamplePayload :=
  SearchResult.mk none

/-- A search response whose only hit is a nil pointer. -/
def nilHit : SearchResult SamplePayload :=
  SearchResult.mk (some (SearchHits.mk [none]))

/-- A static dataset of three documents, the second one malformed. -/
def sampleDataset : List (String × SamplePayload) :=
  [("p1", SamplePayload.encoded (productDocument.mk "Red Mug" "Ceramic" 999)),
   ("p2", SamplePayload.malformed),
   ("p3", SamplePayload.encoded (productDocument.mk "Blue Mug" "Stoneware" 1250))]

/-- Search call of the example static dataset. -/
def sampleSearch : SearchRequest → Unit → Except String (SearchResult SamplePayload) :=
  staticSearch sampleDataset

/-! ## Specification-side definitions -/

/-- The product a hit stands for when its payload decodes: the hit's id with
the decoded fields. A hit without payload, or whose payload does not decode,
stands for none. -/
def decodeHit {E Raw F : Type} (unmarshal : Raw → Except E (productDocument F))
    (hit : SearchHit Raw) : Option (Product F) :=
  match hit.Source with
  | none => none
  | some src =>
    match unmarshal src with
    | Except.ok p => some (Product.mk hit.Id p.Name p.Description p.Price)
    | Except.error _ => none

/-- The product an entry of the hit slice stands for: that of its hit, none for
a nil entry. -/
def decodeEntry {E Raw F : Type} (unmarshal : Raw → Except E (productDocument F))
    (entry : Option (SearchHit Raw)) : Option (Product F) :=
  match entry with
  | none => none
  | some hit => decodeHit unmarshal hit

/-- Whether an entry of the hit slice can be read by the loop without a nil
dereference: the hit pointer and its `Source` pointer are both non-nil. -/
def entryHasSource {Raw : Type} (entry : Option (SearchHit Raw)) : Bool :=
  match entry with
  | none => false
  | some hit => hit.Source.isSome

/-- Whether an entry of the document slice can be read by the loop without a
nil dereference. -/
def docHasSource {Raw : Type} (entry : Option (GetResult Raw)) : Bool :=
  match entry with
  | none => false
  | some doc => doc.Source.isSome

end Catalog

/-! ## Properties -/

namespace Catalog

/-! ### Single fetch -/

/-- C1, as stated, fails, in two ways. A product with an empty `ID`: the index
call succeeds (the engine generates a key), and `GetProductByID("")` is refused
by the client, so it returns an error and no product. A product whose document
the codec does not read back as written: the index call succeeds and
`GetProductByID` returns a product with another name. -/
theorem put_then_get_roundtrip_fails :
    ((PutProduct sampleIndex namelessKeyMug DocStore.empty).1 = none ∧
      GetProductByID sampleGet sampleUnmarshal namelessKeyMug.ID
          (PutProduct sampleIndex namelessKeyMug DocStore.empty).2
        = Outcome.ret (none, some (GoError.external "missing required fields: [Id]")) ∧
      GetProductByID sampleGet sampleUnmarshal namelessKeyMug.ID
          (PutProduct sampleIndex namelessKeyMug DocStore.empty).2
        ≠ Outcome.ret (some namelessKeyMug, none)) ∧
    ((PutProduct replacingIndex redMug DocStore.empty).1 = none ∧
      GetProductByID sampleGet sampleUnmarshal redMug.ID
          (PutProduct replacingIndex redMug DocStore.empty).2
        = Outcome.ret (some (Product.mk "p1" "?" "Ceramic mug, red glaze" 999), none) ∧
      GetProductByID sampleGet sampleUnmarshal redMug.ID
          (PutProduct replacingIndex redMug DocStore.empty).2
        ≠ Outcome.ret (some redMug, none)) := by
  refine ⟨⟨?_, ?_, ?_⟩, ⟨?_, ?_, ?_⟩⟩ <;> decide

/-- C1, amended. Round trip over the key-to-document store, for a product with
a non-empty `ID` whose document the codec reads back as it wrote it: when the
index call of `PutProduct p` succeeds, `GetProductByID p.ID` on the resulting
store returns `p` itself, all four fields, and a nil error. -/
theorem put_then_get_roundtrip {E Raw F : Type}
    (marshal : productDocument F → Except E Raw)
    (unmarshal : Raw → Except E (productDocument F))
    (errs : ClientErrors E) (autoId : String)
    (p : Product F) (s : DocStore Raw)
    (hid : p.ID ≠ "")
    (hidx : (PutProduct (DocStore.index marshal errs autoId) p s).1 = none)
    (hcodec : ∀ raw, marshal (PutProduct.request p).BodyJson = Except.ok raw →
      unmarshal raw = Except.ok (PutProduct.request p).BodyJson) :
    GetProductByID (DocStore.get errs) unmarshal p.ID
        (PutProduct (DocStore.index marshal errs autoId) p s).2
      = Outcome.ret (some p, none) := by
  unfold PutProduct DocStore.index at hidx ⊢
  have hreq : ¬ ((PutProduct.request p).Index = "" ∨ (PutProduct.request p).DocType = "") := by
    simp [PutProduct.request]
  rw [if_neg hreq] at hidx ⊢
  cases hm : marshal (PutProduct.request p).BodyJson with
  | error e => simp [hm] at hidx
  | ok raw =>
    have hu := hcodec raw hm
    simp only [hm]
    simp [GetProductByID, DocStore.get, GetProductByID.request,
      PutProduct.request, hu, hid]

/-- Witness of the amended C1: the red mug stored into the empty example
store. -/
theorem put_then_get_roundtrip_witness :
    redMug.ID ≠ "" ∧
    (PutProduct sampleIndex redMug DocStore.empty).1 = none ∧
    (∀ raw, sampleMarshal (PutProduct.request redMug).BodyJson = Except.ok raw →
      sampleUnmarshal raw = Except.ok (PutProduct.request redMug).BodyJson) ∧
    GetProductByID sampleGet sampleUnmarshal redMug.ID sampleStore
      = Outcome.ret (some redMug, none) :=
  have h0 : redMug.ID ≠ "" := by decide
  have h1 : (PutProduct sampleIndex redMug DocStore.empty).1 = none := by decide
  have h2 : ∀ raw, sampleMarshal (PutProduct.request redMug).BodyJson = Except.ok raw →
      sampleUnmarshal raw = Except.ok (PutProduct.request redMug).BodyJson := by
    intro raw h
    cases h
    rfl
  ⟨h0, h1, h2,
    put_then_get_roundtrip sampleMarshal sampleUnmarshal sampleErrors "AVx3generated"
      redMug DocStore.empty h0 h1 h2⟩

/-- C2. Not-found contract: `GetProductByID` returns a nil product with the
sentinel `ErrNotFound` exactly when the engine get call succeeded and its
response has `Found = false`; when the engine call fails with a transport error
the returned error is that error, which is not the sentinel. -/
theorem get_not_found_iff {S E Raw F : Type}
    (get : GetRequest → S → Except E (GetResult Raw))
    (unmarshal : Raw → Except E (productDocument F))
    (id : String) (s : S) :
    (GetProductByID get unmarshal id s = Outcome.ret (none, some ErrNotFound) ↔
      ∃ res, get (GetProductByID.request id) s = Except.ok res ∧ res.Found = false) ∧
    (∀ e, get (GetProductByID.request id) s = Except.error e →
      GetProductByID get unmarshal id s
          = Outcome.ret (none, some (GoError.external e)) ∧
        GoError.external e ≠ (ErrNotFound : GoError E)) := by
  refine ⟨?_, ?_⟩
  · unfold GetProductByID
    cases hget : get (GetProductByID.request id) s with
    | error e => simp [ErrNotFound]
    | ok res =>
      cases hfound : res.Found with
      | false => simp [hfound]
      | true =>
        cases hsrc : res.Source with
        | none => simp [hfound, hsrc]
        | some src =>
          cases hdec : unmarshal src with
          | error e => simp [hfound, hsrc, hdec, ErrNotFound]
          | ok d => simp [hfound, hsrc, hdec]
  · intro e he
    refine ⟨?_, ?_⟩
    · simp [GetProductByID, he]
    · simp [ErrNotFound]

/-- C7, as stated, fails: a successful get response with `Found = true` whose
`Source` pointer is nil makes `GetProductByID` panic, so it returns neither a
decode error nor a product. -/
theorem get_found_without_source_panics :
    GetProductByID (answering (GetResult.mk "p1" true none)) sampleUnmarshal "p1" ()
        = Outcome.panic ∧
      ∀ r, GetProductByID (answering (GetResult.mk "p1" true none))
        sampleUnmarshal "p1" () ≠ Outcome.ret r := by
  refine ⟨by decide, ?_⟩
  intro r h
  have hp : GetProductByID (answering (GetResult.mk "p1" true none))
      sampleUnmarshal "p1" () = Outcome.panic := by decide
  rw [hp] at h
  cases h

/-- C7, amended. For a successful get response with `Found = true` that carries
a source payload: when the payload fails to decode, `GetProductByID` returns a
nil product and the decode error; when it decodes, `GetProductByID` returns a
nil error and the product made of the requested id (the argument, whatever id
the response names) and the decoded name, description and price. -/
theorem get_found_decodes {S E Raw F : Type}
    (get : GetRequest → S → Except E (GetResult Raw))
    (unmarshal : Raw → Except E (productDocument F))
    (id : String) (s : S) (res : GetResult Raw) (src : Raw)
    (hget : get (GetProductByID.request id) s = Except.ok res)
    (hfound : res.Found = true) (hsrc : res.Source = some src) :
    (∀ e, unmarshal src = Except.error e →
      GetProductByID get unmarshal id s
        = Outcome.ret (none, some (GoError.external e))) ∧
    (∀ d, unmarshal src = Except.ok d →
      GetProductByID get unmarshal id s
        = Outcome.ret (some (Product.mk id d.Name d.Description d.Price), none)) := by
  refine ⟨?_, ?_⟩
  · intro e he
    simp [GetProductByID, hget, hfound, hsrc, he]
  · intro d hd
    simp [GetProductByID, hget, hfound, hsrc, hd]

/-- Witness of the amended C7: a found response naming another id, fetched
under the id `p1`. -/
theorem get_found_decodes_witness :
    (∀ e, sampleUnmarshal (SamplePayload.encoded (productDocument.mk "Red Mug" "Ceramic" 999))
        = Except.error e →
      GetProductByID
          (answering (GetResult.mk "other" true
            (some (SamplePayload.encoded (productDocument.mk "Red Mug" "Ceramic" 999)))))
          sampleUnmarshal "p1" ()
        = Outcome.ret (none, some (GoError.external e))) ∧
    (∀ d, sampleUnmarshal (SamplePayload.encoded (productDocument.mk "Red Mug" "Ceramic" 999))
        = Except.ok d →
      GetProductByID
          (answering (GetResult.mk "other" true
            (some (SamplePayload.encoded (productDocument.mk "Red Mug" "Ceramic" 999)))))
          sampleUnmarshal "p1" ()
        = Outcome.ret (some (Product.mk "p1" d.Name d.Description d.Price), none)) :=
  get_found_decodes
    (answering (GetResult.mk "other" true
      (some (SamplePayload.encoded (productDocument.mk "Red Mug" "Ceramic" 999)))))
    sampleUnmarshal "p1" ()
    (GetResult.mk "other" true
      (some (SamplePayload.encoded (productDocument.mk "Red Mug" "Ceramic" 999))))
    (SamplePayload.encoded (productDocument.mk "Red Mug" "Ceramic" 999))
    rfl rfl rfl

/-! ### Transport errors -/

/-- C6. Transport errors are surfaced unchanged: when the one engine call of an
operation fails with `e`, `PutProduct` returns `e` (and the state that call
left), and each of the four read operations returns a nil result with `e`. -/
theorem transport_error_surfaced {S E Raw F : Type}
    (index : IndexRequest F → S → Except E Unit × S)
    (get : GetRequest → S → Except E (GetResult Raw))
    (search : SearchRequest → S → Except E (SearchResult Raw))
    (multiGet : List MultiGetItem → S → Except E (MgetResponse Raw))
    (unmarshal : Raw → Except E (productDocument F))
    (p : Product F) (id query : String) (ids : List String) (skip take : Nat)
    (s : S) (e : E) :
    ((index (PutProduct.request p) s).1 = Except.error e →
      PutProduct index p s
        = (some (GoError.external e), (index (PutProduct.request p) s).2)) ∧
    (get (GetProductByID.request id) s = Except.error e →
      GetProductByID get unmarshal id s
        = Outcome.ret (none, some (GoError.external e))) ∧
    (search (ListProducts.request skip take) s = Except.error e →
      ListProducts search unmarshal skip take s
        = Outcome.ret (none, some (GoError.external e))) ∧
    (multiGet (ListProductsWithIDs.items ids []) s = Except.error e →
      ListProductsWithIDs multiGet unmarshal ids s
        = Outcome.ret (none, some (GoError.external e))) ∧
    (search (SearchProducts.request query skip take) s = Except.error e →
      SearchProducts search unmarshal query skip take s
        = Outcome.ret (none, some (GoError.external e))) := by
  refine ⟨?_, ?_, ?_, ?_, ?_⟩
  · intro h
    unfold PutProduct
    rcases hx : index (PutProduct.request p) s with ⟨r, s1⟩
    rw [hx] at h
    simp only at h
    subst h
    rfl
  · intro h
    simp [GetProductByID, h]
  · intro h
    simp [ListProducts, h]
  · intro h
    simp [ListProductsWithIDs, h]
  · intro h
    simp [SearchProducts, h]

/-- Witness of C6: every engine call failing with `connection refused`. -/
theorem transport_error_surfaced_witness :
    PutProduct (fun _ (s : Unit) => (Except.error "connection refused", s)) redMug ()
        = (some (GoError.external "connection refused"), ()) ∧
    GetProductByID (failing "connection refused") sampleUnmarshal "p1" ()
        = Outcome.ret (none, some (GoError.external "connection refused")) ∧
    ListProducts (failing "connection refused") sampleUnmarshal 0 10 ()
        = Outcome.ret (none, some (GoError.external "connection refused")) ∧
    ListProductsWithIDs (failing "connection refused") sampleUnmarshal ["p1", "p2"] ()
        = Outcome.ret (none, some (GoError.external "connection refused")) ∧
    SearchProducts (failing "connection refused") sampleUnmarshal "ceramic" 0 10 ()
        = Outcome.ret (none, some (GoError.external "connection refused")) :=
  have h := transport_error_surfaced
    (fun _ (s : Unit) => (Except.error "connection refused", s))
    (failing "connection refused") (failing "connection refused")
    (failing "connection refused") sampleUnmarshal redMug "p1" "ceramic"
    ["p1", "p2"] 0 10 () "connection refused"
  ⟨h.1 rfl, h.2.1 rfl, h.2.2.1 rfl, h.2.2.2.1 rfl, h.2.2.2.2 rfl⟩

/-! ### The result loops -/

/-- The loop of `ListProducts` on entries that are all non-nil hits carrying a
payload returns the products accumulated so far followed by the decodable
hits, in order. -/
theorem ListProducts.loop_of_sources {E Raw F : Type}
    (unmarshal : Raw → Except E (productDocument F))
    (hits : List (Option (SearchHit Raw))) :
    ∀ (products : List (Product F)) (err : Option (GoError E)),
      (∀ entry ∈ hits, entryHasSource entry = true) →
      ∃ e, ListProducts.loop unmarshal hits products err
        = Outcome.ret (products ++ hits.filterMap (decodeEntry unmarshal), e) := by
  induction hits with
  | nil =>
    intro products err _
    exact ⟨err, by simp [ListProducts.loop]⟩
  | cons entry rest ih =>
    intro products err hsrc
    have hrest : ∀ h ∈ rest, entryHasSource h = true :=
      fun h hh => hsrc h (List.mem_cons_of_mem _ hh)
    have hentry := hsrc entry (List.mem_cons_self _ _)
    cases entry with
    | none => simp [entryHasSource] at hentry
    | some hit =>
      cases hs : hit.Source with
      | none => simp [entryHasSource, hs] at hentry
      | some src =>
        cases hd : unmarshal src with
        | error e =>
          obtain ⟨e1, he1⟩ := ih products (some (GoError.external e)) hrest
          refine ⟨e1, ?_⟩
          simp [ListProducts.loop, hs, hd, he1, decodeEntry, decodeHit, List.filterMap_cons]
        | ok d =>
          obtain ⟨e1, he1⟩ := ih
            (products ++ [Product.mk hit.Id d.Name d.Description d.Price]) none hrest
          refine ⟨e1, ?_⟩
          simp [ListProducts.loop, hs, hd, he1, decodeEntry, decodeHit, List.filterMap_cons]

/-- The loop of `ListProducts` panics as soon as one entry is a nil hit or a
hit with a nil `Source`. -/
theorem ListProducts.loop_panics {E Raw F : Type}
    (unmarshal : Raw → Except E (productDocument F))
    (hits : List (Option (SearchHit Raw))) :
    ∀ (products : List (Product F)) (err : Option (GoError E)),
      (∃ entry ∈ hits, entryHasSource entry = false) →
      ListProducts.loop unmarshal hits products err = Outcome.panic := by
  induction hits with
  | nil =>
    intro products err h
    obtain ⟨entry, hmem, _⟩ := h
    cases hmem
  | cons entry rest ih =>
    intro products err h
    cases entry with
    | none => simp [ListProducts.loop]
    | some hit =>
      cases hs : hit.Source with
      | none => simp [ListProducts.loop, hs]
      | some src =>
        have hrest : ∃ h ∈ rest, entryHasSource h = false := by
          obtain ⟨h1, hmem, hnone⟩ := h
          rcases List.mem_cons.mp hmem with rfl | hm
          · simp [entryHasSource, hs] at hnone
          · exact ⟨h1, hm, hnone⟩
        cases hd : unmarshal src with
        | error e => simp [ListProducts.loop, hs, hd, ih _ _ hrest]
        | ok d => simp [ListProducts.loop, hs, hd, ih _ _ hrest]

/-- The loops of `SearchProducts` and `ListProducts` are the same function. -/
theorem SearchProducts.loop_eq_list_loop {E Raw F : Type}
    (unmarshal : Raw → Except E (productDocument F))
    (hits : List (Option (SearchHit Raw))) :
    ∀ (products : List (Product F)) (err : Option (GoError E)),
      SearchProducts.loop unmarshal hits products err
        = ListProducts.loop unmarshal hits products err := by
  induction hits with
  | nil =>
    intro products err
    simp [SearchProducts.loop, ListProducts.loop]
  | cons entry rest ih =>
    intro products err
    cases entry with
    | none => simp [SearchProducts.loop, ListProducts.loop]
    | some hit =>
      cases hs : hit.Source with
      | none => simp [SearchProducts.loop, ListProducts.loop, hs]
      | some src =>
        cases hd : unmarshal src with
        | error e => simp [SearchProducts.loop, ListProducts.loop, hs, hd, ih]
        | ok d => simp [SearchProducts.loop, ListProducts.loop, hs, hd, ih]

/-- When the last entry is a hit carrying a payload that fails to decode, the
loop of `ListProducts` ends with that decode error in `err`. -/
theorem ListProducts.loop_last_error {E Raw F : Type}
    (unmarshal : Raw → Except E (productDocument F))
    (hit : SearchHit Raw) (src : Raw) (e : E)
    (hs : hit.Source = some src) (hd : unmarshal src = Except.error e)
    (front : List (Option (SearchHit Raw))) :
    ∀ (products : List (Product F)) (err : Option (GoError E)),
      (∀ h ∈ front, entryHasSource h = true) →
      ∃ ps, ListProducts.loop unmarshal (front ++ [some hit]) products err
        = Outcome.ret (ps, some (GoError.external e)) := by
  induction front with
  | nil =>
    intro products err _
    exact ⟨products, by simp [ListProducts.loop, hs, hd]⟩
  | cons entry rest ih =>
    intro products err hsrc
    have hrest : ∀ x ∈ rest, entryHasSource x = true :=
      fun x hx => hsrc x (List.mem_cons_of_mem _ hx)
    have hentry := hsrc entry (List.mem_cons_self _ _)
    cases entry with
    | none => simp [entryHasSource] at hentry
    | some h =>
      cases hs1 : h.Source with
      | none => simp [entryHasSource, hs1] at hentry
      | some src1 =>
        cases hd1 : unmarshal src1 with
        | error e1 =>
          obtain ⟨ps, hps⟩ := ih products (some (GoError.external e1)) hrest
          exact ⟨ps, by simp [ListProducts.loop, hs1, hd1, hps]⟩
        | ok d =>
          obtain ⟨ps, hps⟩ := ih
            (products ++ [Product.mk h.Id d.Name d.Description d.Price]) none hrest
          exact ⟨ps, by simp [ListProducts.loop, hs1, hd1, hps]⟩

/-- The loop of `ListProductsWithIDs` panics as soon as one entry is nil or has
a nil `Source`. -/
theorem ListProductsWithIDs.loop_panics_on_nil_source {E Raw F : Type}
    (unmarshal : Raw → Except E (productDocument F))
    (docs : List (Option (GetResult Raw))) :
    ∀ (products : List (Product F)) (err : Option (GoError E)),
      (∃ entry ∈ docs, docHasSource entry = false) →
      ListProductsWithIDs.loop unmarshal docs products err = Outcome.panic := by
  induction docs with
  | nil =>
    intro products err h
    obtain ⟨entry, hmem, _⟩ := h
    cases hmem
  | cons entry rest ih =>
    intro products err h
    cases entry with
    | none => simp [ListProductsWithIDs.loop]
    | some doc =>
      cases hs : doc.Source with
      | none => simp [ListProductsWithIDs.loop, hs]
      | some src =>
        have hrest : ∃ d ∈ rest, docHasSource d = false := by
          obtain ⟨d1, hmem, hnone⟩ := h
          rcases List.mem_cons.mp hmem with rfl | hm
          · simp [docHasSource, hs] at hnone
          · exact ⟨d1, hm, hnone⟩
        cases hd : unmarshal src with
        | error e => simp [ListProductsWithIDs.loop, hs, hd, ih _ _ hrest]
        | ok d => simp [ListProductsWithIDs.loop, hs, hd, ih _ _ hrest]

/-! ### Listing and search -/

/-- C9, as stated, fails: `ListProducts` panics, and so returns no slice at
all, on a successful search response holding a hit whose `Source` pointer is
nil, on one without a hits object, and on one holding a nil hit. -/
theorem list_hit_without_source_panics :
    (ListProducts (answering hitWithoutSource) sampleUnmarshal 0 10 () = Outcome.panic ∧
      ∀ r, ListProducts (answering hitWithoutSource) sampleUnmarshal 0 10 ()
        ≠ Outcome.ret r) ∧
    (ListProducts (answering withoutHitsObject) sampleUnmarshal 0 10 () = Outcome.panic ∧
      ∀ r, ListProducts (answering withoutHitsObject) sampleUnmarshal 0 10 ()
        ≠ Outcome.ret r) ∧
    (ListProducts (answering nilHit) sampleUnmarshal 0 10 () = Outcome.panic ∧
      ∀ r, ListProducts (answering nilHit) sampleUnmarshal 0 10 ()
        ≠ Outcome.ret r) := by
  have h1 : ListProducts (answering hitWithoutSource) sampleUnmarshal 0 10 ()
      = Outcome.panic := by decide
  have h2 : ListProducts (answering withoutHitsObject) sampleUnmarshal 0 10 ()
      = Outcome.panic := by decide
  have h3 : ListProducts (answering nilHit) sampleUnmarshal 0 10 ()
      = Outcome.panic := by decide
  refine ⟨⟨h1, ?_⟩, ⟨h2, ?_⟩, ⟨h3, ?_⟩⟩
  · intro r h
    rw [h1] at h
    cases h
  · intro r h
    rw [h2] at h
    cases h
  · intro r h
    rw [h3] at h
    cases h

/-- C9, amended. For a successful search response that has a hits object whose
entries are all non-nil hits with a non-nil `Source`, the slice `ListProducts`
returns is non-nil and is exactly the decodable hits in the response order,
each as the product of the hit id and the decoded fields; so it is never longer
than the hit sequence, and it is the empty non-nil slice when no payload
decodes. -/
theorem list_returns_decodable_hits {S E Raw F : Type}
    (search : SearchRequest → S → Except E (SearchResult Raw))
    (unmarshal : Raw → Except E (productDocument F))
    (skip take : Nat) (s : S) (res : SearchResult Raw) (hits : SearchHits Raw)
    (hres : search (ListProducts.request skip take) s = Except.ok res)
    (hhits : res.Hits = some hits)
    (hsrc : ∀ entry ∈ hits.Hits, entryHasSource entry = true) :
    ∃ err, ListProducts search unmarshal skip take s
        = Outcome.ret (some (hits.Hits.filterMap (decodeEntry unmarshal)), err) ∧
      (hits.Hits.filterMap (decodeEntry unmarshal)).length ≤ hits.Hits.length ∧
      ((∀ entry ∈ hits.Hits, decodeEntry unmarshal entry = none) →
        ListProducts search unmarshal skip take s = Outcome.ret (some [], err)) := by
  obtain ⟨e, he⟩ := ListProducts.loop_of_sources unmarshal hits.Hits [] none hsrc
  have hret : ListProducts search unmarshal skip take s
      = Outcome.ret (some (hits.Hits.filterMap (decodeEntry unmarshal)), e) := by
    simp [ListProducts, hres, hhits, he]
  refine ⟨e, hret, List.length_filterMap_le _ _, ?_⟩
  intro hnone
  rw [hret, List.filterMap_eq_nil_iff.mpr hnone]

/-- Witness of the amended C9: two hits with payloads, the last one malformed. -/
theorem list_returns_decodable_hits_witness :
    (lastHitMalformed.Hits = some (SearchHits.mk
        [some (SearchHit.mk "p1"
          (some (SamplePayload.encoded (productDocument.mk "Red Mug" "Ceramic" 999)))),
         some (SearchHit.mk "p2" (some SamplePayload.malformed))]) ∧
      ∀ entry ∈ [some (SearchHit.mk "p1"
          (some (SamplePayload.encoded (productDocument.mk "Red Mug" "Ceramic" 999)))),
         some (SearchHit.mk "p2" (some SamplePayload.malformed))],
        entryHasSource entry = true) ∧
    ∃ err, ListProducts (answering lastHitMalformed) sampleUnmarshal 0 10 ()
        = Outcome.ret (some [Product.mk "p1" "Red Mug" "Ceramic" 999], err) :=
  have h : ∀ entry ∈ [some (SearchHit.mk "p1"
          (some (SamplePayload.encoded (productDocument.mk "Red Mug" "Ceramic" 999)))),
         some (SearchHit.mk "p2" (some SamplePayload.malformed))],
        entryHasSource entry = true := by decide
  have hw := list_returns_decodable_hits (answering lastHitMalformed) sampleUnmarshal 0 10 ()
    lastHitMalformed (SearchHits.mk
        [some (SearchHit.mk "p1"
          (some (SamplePayload.encoded (productDocument.mk "Red Mug" "Ceramic" 999)))),
         some (SearchHit.mk "p2" (some SamplePayload.malformed))]) rfl rfl h
  ⟨⟨rfl, h⟩, hw.elim (fun err herr => ⟨err, herr.1⟩)⟩

/-- C10. Search uses the window and the decode policy of List: the two requests
carry the same offset and limit, and from one and the same engine response the
two operations produce the same outcome (products and error, or panic). -/
theorem search_same_window_and_policy {S E Raw F : Type}
    (searchA searchB : SearchRequest → S → Except E (SearchResult Raw))
    (unmarshal : Raw → Except E (productDocument F))
    (query : String) (skip take : Nat) (s : S)
    (R : Except E (SearchResult Raw))
    (hA : searchA (SearchProducts.request query skip take) s = R)
    (hB : searchB (ListProducts.request skip take) s = R) :
    (SearchProducts.request query skip take).From = (ListProducts.request skip take).From ∧
    (SearchProducts.request query skip take).Size = (ListProducts.request skip take).Size ∧
    SearchProducts searchA unmarshal query skip take s
      = ListProducts searchB unmarshal skip take s := by
  refine ⟨rfl, rfl, ?_⟩
  unfold SearchProducts ListProducts
  rw [hA, hB]
  cases R with
  | error e => rfl
  | ok res => simp only [SearchProducts.loop_eq_list_loop]

/-- Witness of C10: both operations on the response whose last hit is malformed. -/
theorem search_same_window_and_policy_witness :
    (SearchProducts.request "ceramic" 5 10).From = (ListProducts.request 5 10).From ∧
    (SearchProducts.request "ceramic" 5 10).Size = (ListProducts.request 5 10).Size ∧
    SearchProducts (answering lastHitMalformed) sampleUnmarshal "ceramic" 5 10 ()
      = ListProducts (answering lastHitMalformed) sampleUnmarshal 5 10 () :=
  search_same_window_and_policy (answering lastHitMalformed) (answering lastHitMalformed)
    sampleUnmarshal "ceramic" 5 10 () (Except.ok lastHitMalformed) rfl rfl

/-- C4: the code at the failing input. On a successful search response whose
last hit fails to decode, `ListProducts` and `SearchProducts` return the decoded
products together with the decode error of that hit, not a nil error, while
`ListProductsWithIDs` on the same entries returns a nil error. -/
theorem list_and_search_leak_last_decode_error :
    ListProducts (answering lastHitMalformed) sampleUnmarshal 0 10 ()
      = Outcome.ret (some [Product.mk "p1" "Red Mug" "Ceramic" 999],
          some (GoError.external "invalid character")) ∧
    SearchProducts (answering lastHitMalformed) sampleUnmarshal "mug" 0 10 ()
      = Outcome.ret (some [Product.mk "p1" "Red Mug" "Ceramic" 999],
          some (GoError.external "invalid character")) ∧
    ListProductsWithIDs (answering lastDocMalformed) sampleUnmarshal ["p1", "p2"] ()
      = Outcome.ret (some [Product.mk "p1" "Red Mug" "Ceramic" 999], none) := by
  refine ⟨?_, ?_, ?_⟩ <;> decide

/-- C3: the code at the failing input. With `p1` stored and `p2` never stored,
the multi-get of the store succeeds with one entry per id, the entry of `p2`
marked not found and carrying no payload, and `ListProductsWithIDs` panics on
it instead of returning the product `p1` with a nil error. -/
theorem list_with_ids_missing_id_panics :
    sampleMultiGet (ListProductsWithIDs.items ["p1", "p2"] []) sampleStore
      = Except.ok (MgetResponse.mk
          [some (GetResult.mk "p1" true
            (some (SamplePayload.encoded (productDocument.mk "Red Mug" "Ceramic mug, red glaze" 999)))),
           some (GetResult.mk "p2" false none)]) ∧
    ListProductsWithIDs sampleMultiGet sampleUnmarshal ["p1", "p2"] sampleStore
      = Outcome.panic := by
  refine ⟨rfl, ?_⟩
  decide

/-! ### Pagination -/

/-- Below `2 ^ 63` the conversion `int(x)` keeps the value. -/
theorem intOfUint64_of_lt (x : Nat) (h : x < 2 ^ 63) : intOfUint64 x = (x : Int) := by
  have hmod : x % 2 ^ 64 = x := Nat.mod_eq_of_lt (by omega)
  unfold intOfUint64
  rw [hmod, if_pos h]

/-- From `2 ^ 63` on, the conversion `int(x)` of a `uint64` is `x - 2 ^ 64`. -/
theorem intOfUint64_of_ge (x : Nat) (h : 2 ^ 63 ≤ x) (h64 : x < 2 ^ 64) :
    intOfUint64 x = (x : Int) - 2 ^ 64 := by
  have hmod : x % 2 ^ 64 = x := Nat.mod_eq_of_lt h64
  have hn : ¬ x < 2 ^ 63 := by omega
  unfold intOfUint64
  rw [hmod, if_neg hn]

/-- For natural bounds the integer window is drop-then-take. -/
theorem window_natCast {α : Type} (xs : List α) (n m : Nat) :
    window xs (n : Int) (m : Int) = (xs.drop n).take m := by
  have h : ((n : Int) + (m : Int)).toNat - (n : Int).toNat = m := by
    simp
    omega
  unfold window
  rw [h, Int.toNat_natCast]

/-- `ListProducts` over the static dataset, for an offset and a limit below
`2 ^ 63`: the decodable documents of the window, and some error value. -/
theorem ListProducts.static_window {E Raw F : Type}
    (dataset : List (String × Raw))
    (unmarshal : Raw → Except E (productDocument F))
    (skip take : Nat) (hs : skip < 2 ^ 63) (ht : take < 2 ^ 63) :
    ∃ e, ListProducts (staticSearch dataset) unmarshal skip take ()
      = Outcome.ret
          (some ((((dataset.map (fun d => some (SearchHit.mk d.1 (some d.2)))).drop skip).take
            take).filterMap (decodeEntry unmarshal)), e) := by
  have hsrc : ∀ entry ∈ ((dataset.map (fun d => some (SearchHit.mk d.1 (some d.2)))).drop
      skip).take take, entryHasSource entry = true := by
    intro entry hmem
    have h1 := List.mem_of_mem_drop (List.mem_of_mem_take hmem)
    obtain ⟨d, _, rfl⟩ := List.mem_map.mp h1
    simp [entryHasSource]
  obtain ⟨e, he⟩ := ListProducts.loop_of_sources unmarshal _ [] none hsrc
  refine ⟨e, ?_⟩
  simp only [List.nil_append] at he
  simp only [ListProducts, staticSearch, ListProducts.request, intOfUint64_of_lt skip hs,
    intOfUint64_of_lt take ht, window_natCast, he]

/-- A decoded product carries the id of its hit. -/
theorem decodeHit_id {E Raw F : Type}
    (unmarshal : Raw → Except E (productDocument F))
    (hit : SearchHit Raw) (p : Product F) (h : decodeHit unmarshal hit = some p) :
    p.ID = hit.Id := by
  unfold decodeHit at h
  cases hs : hit.Source with
  | none => simp [hs] at h
  | some src =>
    cases hd : unmarshal src with
    | error e => simp [hs, hd] at h
    | ok d =>
      simp [hs, hd] at h
      rw [← h]

/-- A product decoded from an entry of the static dataset carries the key of a
document of that part of the dataset. -/
theorem decodeEntry_key_mem {E Raw F : Type}
    (unmarshal : Raw → Except E (productDocument F))
    (part : List (String × Raw)) (p : Product F)
    (h : p ∈ (part.map (fun d => some (SearchHit.mk d.1 (some d.2)))).filterMap
      (decodeEntry unmarshal)) :
    p.ID ∈ part.map Prod.fst := by
  obtain ⟨entry, hmem, hdec⟩ := List.mem_filterMap.mp h
  obtain ⟨d, hd, rfl⟩ := List.mem_map.mp hmem
  have hid := decodeHit_id unmarshal (SearchHit.mk d.1 (some d.2)) p hdec
  rw [hid]
  exact List.mem_map_of_mem _ hd

/-- C8, as stated, fails: for `skip = 2 ^ 63` and `take = 2 ^ 64 - 1`, both
`uint64` values, the offset and the limit handed to the engine are the negative
numbers `- 2 ^ 63` and `-1`, not `skip` and `take`. -/
theorem window_parameters_wrap :
    (ListProducts.request 9223372036854775808 18446744073709551615).From
        = -9223372036854775808 ∧
    (ListProducts.request 9223372036854775808 18446744073709551615).Size = -1 ∧
    (SearchProducts.request "mug" 9223372036854775808 18446744073709551615).From
        = -9223372036854775808 ∧
    (SearchProducts.request "mug" 9223372036854775808 18446744073709551615).Size = -1 ∧
    (ListProducts.request 9223372036854775808 18446744073709551615).From
        ≠ ((9223372036854775808 : Nat) : Int) ∧
    (ListProducts.request 9223372036854775808 18446744073709551615).Size
        ≠ ((18446744073709551615 : Nat) : Int) := by
  refine ⟨?_, ?_, ?_, ?_, ?_, ?_⟩ <;> decide

/-- C8, amended. For `uint64` values `skip` and `take`, the offset and the
limit that `ListProducts` and `SearchProducts` hand to the engine equal `skip`
and `take` when these are below `2 ^ 63`; a value of `2 ^ 63` or more is handed
over as that value minus `2 ^ 64`. No other bound is applied. -/
theorem window_parameters (query : String) (skip take : Nat)
    (hs : skip < 2 ^ 64) (ht : take < 2 ^ 64) :
    (skip < 2 ^ 63 →
      (ListProducts.request skip take).From = (skip : Int) ∧
      (SearchProducts.request query skip take).From = (skip : Int)) ∧
    (take < 2 ^ 63 →
      (ListProducts.request skip take).Size = (take : Int) ∧
      (SearchProducts.request query skip take).Size = (take : Int)) ∧
    (2 ^ 63 ≤ skip →
      (ListProducts.request skip take).From = (skip : Int) - 2 ^ 64 ∧
      (SearchProducts.request query skip take).From = (skip : Int) - 2 ^ 64) ∧
    (2 ^ 63 ≤ take →
      (ListProducts.request skip take).Size = (take : Int) - 2 ^ 64 ∧
      (SearchProducts.request query skip take).Size = (take : Int) - 2 ^ 64) := by
  refine ⟨?_, ?_, ?_, ?_⟩
  · intro h
    exact ⟨intOfUint64_of_lt skip h, intOfUint64_of_lt skip h⟩
  · intro h
    exact ⟨intOfUint64_of_lt take h, intOfUint64_of_lt take h⟩
  · intro h
    exact ⟨intOfUint64_of_ge skip h hs, intOfUint64_of_ge skip h hs⟩
  · intro h
    exact ⟨intOfUint64_of_ge take h ht, intOfUint64_of_ge take h ht⟩

/-- Witness of the amended C8: `skip = 20` keeps its value, `take = 2 ^ 63`
becomes `2 ^ 63 - 2 ^ 64`. -/
theorem window_parameters_witness :
    (20 < 2 ^ 64 ∧ 9223372036854775808 < 2 ^ 64) ∧
    ((ListProducts.request 20 9223372036854775808).From = ((20 : Nat) : Int) ∧
      (SearchProducts.request "mug" 20 9223372036854775808).From = ((20 : Nat) : Int)) ∧
    ((ListProducts.request 20 9223372036854775808).Size
        = ((9223372036854775808 : Nat) : Int) - 2 ^ 64 ∧
      (SearchProducts.request "mug" 20 9223372036854775808).Size
        = ((9223372036854775808 : Nat) : Int) - 2 ^ 64) :=
  have hs : 20 < 2 ^ 64 := by decide
  have ht : 9223372036854775808 < 2 ^ 64 := by decide
  have h := window_parameters "mug" 20 9223372036854775808 hs ht
  ⟨⟨hs, ht⟩, h.1 (by decide), h.2.2.2 (by decide)⟩

/-- C5, as stated, fails: over the static dataset holding the one document
`p1`, with `N = 1` and `M = 2 ^ 63 - 1`, the first page is `[p1]`, the second
page is empty, and `ListProducts(0, N + M)` asks the engine for the limit
`- 2 ^ 63` and returns no product; so the third result is not the first
followed by the second. -/
theorem list_pages_wrap :
    ListProducts
        (staticSearch [("p1", SamplePayload.encoded (productDocument.mk "Red Mug" "Ceramic" 999))])
        sampleUnmarshal 0 1 ()
      = Outcome.ret (some [Product.mk "p1" "Red Mug" "Ceramic" 999], none) ∧
    ListProducts
        (staticSearch [("p1", SamplePayload.encoded (productDocument.mk "Red Mug" "Ceramic" 999))])
        sampleUnmarshal 1 9223372036854775807 ()
      = Outcome.ret (some [], none) ∧
    ListProducts
        (staticSearch [("p1", SamplePayload.encoded (productDocument.mk "Red Mug" "Ceramic" 999))])
        sampleUnmarshal 0 (1 + 9223372036854775807) ()
      = Outcome.ret (some [], none) ∧
    ¬ ∃ a b ea eb ec,
      ListProducts
          (staticSearch [("p1", SamplePayload.encoded (productDocument.mk "Red Mug" "Ceramic" 999))])
          sampleUnmarshal 0 1 ()
        = Outcome.ret (some a, ea) ∧
      ListProducts
          (staticSearch [("p1", SamplePayload.encoded (productDocument.mk "Red Mug" "Ceramic" 999))])
          sampleUnmarshal 1 9223372036854775807 ()
        = Outcome.ret (some b, eb) ∧
      ListProducts
          (staticSearch [("p1", SamplePayload.encoded (productDocument.mk "Red Mug" "Ceramic" 999))])
          sampleUnmarshal 0 (1 + 9223372036854775807) ()
        = Outcome.ret (some (a ++ b), ec) := by
  have h1 : ListProducts
      (staticSearch [("p1", SamplePayload.encoded (productDocument.mk "Red Mug" "Ceramic" 999))])
      sampleUnmarshal 0 1 ()
      = Outcome.ret (some [Product.mk "p1" "Red Mug" "Ceramic" 999], none) := by decide
  have h2 : ListProducts
      (staticSearch [("p1", SamplePayload.encoded (productDocument.mk "Red Mug" "Ceramic" 999))])
      sampleUnmarshal 1 9223372036854775807 ()
      = Outcome.ret (some [], none) := by decide
  have h3 : ListProducts
      (staticSearch [("p1", SamplePayload.encoded (productDocument.mk "Red Mug" "Ceramic" 999))])
      sampleUnmarshal 0 (1 + 9223372036854775807) ()
      = Outcome.ret (some [], none) := by decide
  refine ⟨h1, h2, h3, ?_⟩
  rintro ⟨a, b, ea, eb, ec, ha, hb, hc⟩
  rw [h1] at ha
  rw [h3] at hc
  simp only [Outcome.ret.injEq, Prod.mk.injEq, Option.some.injEq] at ha hc
  have hnil := hc.1
  rw [← ha.1] at hnil
  simp at hnil

/-- C5, amended. Over a static dataset with pairwise distinct ids, for every
`N` and `M` with `N + M < 2 ^ 63`, the three calls `ListProducts(0, N)`,
`ListProducts(N, M)` and `ListProducts(0, N + M)` return non-nil slices, the
first two are disjoint, and the third is the first followed by the second. -/
theorem list_pages_partition {E Raw F : Type}
    (dataset : List (String × Raw))
    (unmarshal : Raw → Except E (productDocument F))
    (N M : Nat)
    (hids : (dataset.map Prod.fst).Nodup) (hNM : N + M < 2 ^ 63) :
    ∃ a b ea eb ec,
      ListProducts (staticSearch dataset) unmarshal 0 N () = Outcome.ret (some a, ea) ∧
      ListProducts (staticSearch dataset) unmarshal N M () = Outcome.ret (some b, eb) ∧
      ListProducts (staticSearch dataset) unmarshal 0 (N + M) ()
        = Outcome.ret (some (a ++ b), ec) ∧
      List.Disjoint a b := by
  obtain ⟨ea, ha⟩ := ListProducts.static_window dataset unmarshal 0 N (by omega) (by omega)
  obtain ⟨eb, hb⟩ := ListProducts.static_window dataset unmarshal N M (by omega) (by omega)
  obtain ⟨ec, hc⟩ := ListProducts.static_window dataset unmarshal 0 (N + M) (by omega) hNM
  refine ⟨_, _, ea, eb, ec, ha, hb, ?_, ?_⟩
  · rw [hc]
    simp only [List.drop_zero, List.take_add, List.filterMap_append]
  · rw [List.disjoint_left]
    intro p hpa hpb
    simp only [List.drop_zero, ← List.map_take, ← List.map_drop] at hpa hpb
    have hin1 := decodeEntry_key_mem unmarshal _ p hpa
    have hin2 := decodeEntry_key_mem unmarshal _ p hpb
    have hin3 : p.ID ∈ (dataset.drop N).map Prod.fst := by
      obtain ⟨d, hd, hdid⟩ := List.mem_map.mp hin2
      exact List.mem_map.mpr ⟨d, List.mem_of_mem_take hd, hdid⟩
    have hnd := hids
    rw [← List.take_append_drop N dataset, List.map_append, List.nodup_append] at hnd
    exact (List.disjoint_left.mp hnd.2.2) hin1 hin3

/-- Witness of the amended C5: the example dataset, pages of one and two. -/
theorem list_pages_partition_witness :
    ((sampleDataset.map Prod.fst).Nodup ∧ 1 + 2 < 2 ^ 63) ∧
    ∃ a b ea eb ec,
      ListProducts sampleSearch sampleUnmarshal 0 1 () = Outcome.ret (some a, ea) ∧
      ListProducts sampleSearch sampleUnmarshal 1 2 () = Outcome.ret (some b, eb) ∧
      ListProducts sampleSearch sampleUnmarshal 0 (1 + 2) ()
        = Outcome.ret (some (a ++ b), ec) ∧
      List.Disjoint a b :=
  have h1 : (sampleDataset.map Prod.fst).Nodup := by decide
  have h2 : 1 + 2 < 2 ^ 63 := by decide
  ⟨⟨h1, h2⟩, list_pages_partition sampleDataset sampleUnmarshal 1 2 h1 h2⟩

end Catalog
